import Mathlib

/-!
Verification development for the FMCSA carrier-scraper service (`app.py`).

The Python source is shallowly embedded: JSON values are an inductive type,
Python dict/string operations that can raise become `Except String`
computations, the external HTTP transport and the browser are oracles passed
in as parameters, and the request handler's loop is a recursive function
producing the written CSV lines, an event trace (fetches, row writes,
sleeps) and the final HTTP response.
-/

/-- JSON values as returned by `response.json()` in the source. -/
inductive Json where
  | null
  | str (s : String)
  | num (n : Int)
  | bool (b : Bool)
  | arr (xs : List Json)
  | obj (fields : List (String × Json))

/-- Python truthiness (`if not data:` in `extract_data`). -/
def Json.truthy : Json → Bool
  | .null => false
  | .str s => !s.isEmpty
  | .num n => n != 0
  | .bool b => b
  | .arr xs => !xs.isEmpty
  | .obj fs => !fs.isEmpty

/-- Python `data.get(key, default)`: succeeds only on a dict; a missing key
yields the default, a present key yields its value (even `None`). -/
def Json.get : Json → String → Json → Except String Json
  | .obj fs, k, d => .ok ((fs.lookup k).getD d)
  | _, _, _ => .error "AttributeError: get"

/-- Python `str.lower()`: lowercase character by character (the status texts
involved are ASCII). -/
def pyLower (s : String) : String :=
  String.mk (s.toList.map Char.toLower)

/-- Python `.lower()`: succeeds only on a string. -/
def Json.lower : Json → Except String String
  | .str s => .ok (pyLower s)
  | _ => .error "AttributeError: lower"

/-- Coerce to a Python `str` argument (e.g. for `re.sub`); raises otherwise. -/
def Json.asStr : Json → Except String String
  | .str s => .ok s
  | _ => .error "TypeError: expected str"

/-- Python `==` between a JSON value and an int literal
(`True == 1` is true in Python; values of other types compare unequal). -/
def pyEqInt (j : Json) (n : Int) : Bool :=
  match j with
  | .num m => m == n
  | .bool b => (if b then (1 : Int) else 0) == n
  | _ => false

/-- Does the character list `pat` occur as a leading segment of `l`? -/
def startsWithL : List Char → List Char → Bool
  | [], _ => true
  | _ :: _, [] => false
  | p :: ps, c :: cs => p == c && startsWithL ps cs

/-- Does the character list `pat` occur anywhere inside `l`? -/
def containsL (pat : List Char) : List Char → Bool
  | [] => startsWithL pat []
  | c :: cs => startsWithL pat (c :: cs) || containsL pat cs

/-- Python `pat in s` on strings: substring containment. -/
def strContainsSub (s pat : String) : Bool :=
  containsL pat.toList s.toList


/-- The strings of a JSON array, raising (as Python `str.join` does) at the
first element that is not a string. -/
def strItems : List Json → Except String (List String)
  | [] => .ok []
  | Json.str s :: rest => do
      let tail ← strItems rest
      .ok (s :: tail)
  | _ :: _ => .error "TypeError: join on non-str element"

/-- Python `', '.join(x)`: a list must hold only strings; a string is an
iterable of its characters; a dict iterates over its keys. -/
def Json.pyJoin (sep : String) : Json → Except String String
  | .arr xs => do
      let strs ← strItems xs
      .ok (String.intercalate sep strs)
  | .str s => .ok (String.intercalate sep (s.toList.map Char.toString))
  | .obj fs => .ok (String.intercalate sep (fs.map Prod.fst))
  | _ => .error "TypeError: join on non-iterable"

/-- Values Python `', '.join` accepts: a list of strings, a string, or a
dict (whose keys are strings). -/
def joinable : Json → Bool
  | .arr xs => xs.all (fun j => match j with | .str _ => true | _ => false)
  | .str _ => true
  | .obj _ => true
  | _ => false

/-- A present value on which `.lower()` / `re.sub` is applied must be a
string; a missing key is fine (the `.get` default is used). -/
def typedStr : Option Json → Bool
  | none => true
  | some (Json.str _) => true
  | some _ => false

/-- A present value on which `.get` is applied must be a dict; a missing key
is fine. -/
def typedObj : Option Json → Bool
  | none => true
  | some (Json.obj _) => true
  | some _ => false

/-- A present value passed to `', '.join` must be joinable; a missing key is
fine. -/
def typedJoinable : Option Json → Bool
  | none => true
  | some j => joinable j

/-- Every key the extractor applies an operation to (rather than passing the
value through raw) holds a value of the operation's expected type when
present; keys may freely be missing. -/
def wellTypedRecord (fs : List (String × Json)) : Bool :=
  typedStr (fs.lookup "operating_status") &&
  typedStr (fs.lookup "phone") &&
  typedObj (fs.lookup "mcs_150_mileage_year") &&
  typedJoinable (fs.lookup "operation_classification") &&
  typedJoinable (fs.lookup "carrier_operation") &&
  typedJoinable (fs.lookup "cargo_carried")

/-- `format_phone_number` (app.py:37): strip non-digits, prepend `+1` to a
ten-digit result, otherwise pass the stripped digits through. -/
def format_phone_number (phone : String) : String :=
  let digits := String.mk (phone.toList.filter Char.isDigit)
  if digits.length = 10 then "+1" ++ digits else digits

/-- Outcome of the single `requests.get` call in `fetch_mc_data`:
either the request raised (`requests.RequestException`: connection error or
timeout), or a response arrived, carrying a status code and the result of
parsing its body as JSON (`none` when `response.json()` raises). -/
inductive HttpOutcome where
  | exn
  | response (status : Nat) (body : Option Json)

/-- `fetch_mc_data` (app.py:127): one API lookup. The transport exception is
caught; `raise_for_status` raises `HTTPError` (caught) exactly for status
codes 400–599; a body that fails to parse raises
`requests.exceptions.JSONDecodeError`, a `RequestException` subclass, also
caught. Every caught path returns `None`. -/
def fetch_mc_data (o : HttpOutcome) : Option Json :=
  match o with
  | .exn => none
  | .response status body =>
      if 400 ≤ status ∧ status < 600 then none
      else match body with
        | none => none
        | some j => some j

/-- The filter condition of `extract_data` (app.py:160) as a predicate on the
raw `power_units` value and the raw `operating_status` text: Python equality
with `1` and substring test on the lowercased status. -/
def record_qualifies (power_units : Json) (operating_status : String) : Bool :=
  pyEqInt power_units 1 &&
    strContainsSub (pyLower operating_status) "authorized for property"

/-- The dict returned by `extract_data` for a qualifying record
(app.py:167–185); normalized fields are strings, pass-through fields keep
their raw JSON value. -/
structure CarrierRow where
  legal_name : Json
  usdot : Json
  mc_mx_ff_numbers : Json
  entity_type : Json
  address : Json
  phone : String
  power_units : Json
  drivers : Json
  mcs_150_form_date : Json
  mcs_150_mileage : Json
  mcs_150_mileage_year : Json
  out_of_service_date : Json
  operating_status : Json
  operation_classification : String
  carrier_operation : String
  cargo_carried : String
  scraped_email : String

/-- The body of the qualifying branch of `extract_data` (app.py:161–185), in
source order: scrape the email for the record's raw `usdot` value, then
collect the dict fields; `power_units` is the value already read by the
filter. Any wrongly-typed present value raises (`Except.error`). -/
def build_row (scrape : Json → String) (d : Json) (power_units : Json) :
    Except String CarrierRow := do
  let usdot ← d.get "usdot" (.str "")
  let scraped_email := scrape usdot
  let mileage_info ← d.get "mcs_150_mileage_year" (.obj [])
  let legal_name ← d.get "legal_name" (.str "")
  let mc_mx_ff_numbers ← d.get "mc_mx_ff_numbers" (.str "")
  let entity_type ← d.get "entity_type" (.str "")
  let address ← d.get "physical_address" (.str "")
  let phone ← (← d.get "phone" (.str "")).asStr
  let drivers ← d.get "drivers" (.str "")
  let mcs_150_form_date ← d.get "mcs_150_form_date" (.str "")
  let mcs_150_mileage ← mileage_info.get "mileage" (.str "")
  let mcs_150_mileage_year ← mileage_info.get "year" (.str "")
  let out_of_service_date ← d.get "out_of_service_date" (.str "")
  let operating_status_raw ← d.get "operating_status" (.str "")
  let operation_classification ← (← d.get "operation_classification" (.arr [])).pyJoin ", "
  let carrier_operation ← (← d.get "carrier_operation" (.arr [])).pyJoin ", "
  let cargo_carried ← (← d.get "cargo_carried" (.arr [])).pyJoin ", "
  .ok ⟨legal_name, usdot, mc_mx_ff_numbers, entity_type, address,
    format_phone_number phone, power_units, drivers, mcs_150_form_date,
    mcs_150_mileage, mcs_150_mileage_year, out_of_service_date,
    operating_status_raw, operation_classification, carrier_operation,
    cargo_carried, scraped_email⟩

/-- `extract_data` (app.py:144): returns the row dict if the record passes the
filter, `None` otherwise. Falsy data (`None`, empty dict) short-circuits to
`None`; each dict access uses `.get` with a default, but an operation applied
to a wrongly-typed present value (`.lower()` on a non-string, `.get` on a
non-dict, `join` on a non-iterable, `re.sub` on a non-string) raises, modelled
by `Except.error`. The email scraper is the oracle `scrape`, called on the raw
`usdot` value only when the filter passes. (The source also takes the unused
`mc_number` argument, dropped here.) -/
def extract_data (scrape : Json → String) (data : Option Json) :
    Except String (Option CarrierRow) :=
  match data with
  | none => .ok none
  | some d =>
    if !d.truthy then .ok none
    else do
      let power_units ← d.get "power_units" (.num 0)
      let operating_status ← (← d.get "operating_status" (.str "")).lower
      if pyEqInt power_units 1 &&
          strContainsSub operating_status "authorized for property" then do
        let row ← build_row scrape d power_units
        .ok (some row)
      else .ok none

/-- One line of the output CSV, at the granularity of `writer.writerow`
calls: the fixed header (app.py:125) or one carrier row (app.py:198). -/
inductive CsvLine where
  | header
  | row (r : CarrierRow)

/-- The output file: whether it has been created on disk, and the lines
written so far. -/
structure FileState where
  created : Bool
  lines : List CsvLine

/-- Opening the output path with mode `w` and writing the header
(app.py:123–125): creates the file and leaves exactly the header in it. -/
def writeHeader : FileState :=
  ⟨true, [CsvLine.header]⟩

/-- Opening the file with mode `a` and writing one carrier row
(app.py:196–216). -/
def appendRow (st : FileState) (r : CarrierRow) : FileState :=
  ⟨true, st.lines ++ [CsvLine.row r]⟩

/-- Observable events of one loop iteration: the API fetch, a CSV row write,
and the `time.sleep(5)` throttle. -/
inductive Event where
  | fetch (mc : Nat)
  | writeRow (r : CarrierRow)
  | sleep (seconds : Nat)

/-- The body of the `for mc_number in range(start_mc, end_mc + 1)` loop
(app.py:190–218) for a single identifier: fetch, extract, write the row if
the record qualifies, then sleep 5 seconds unconditionally. -/
def loop_step (fetch : Nat → HttpOutcome) (scrape : Json → String)
    (mc : Nat) (st : FileState) : Except String (FileState × List Event) := do
  let mc_json := fetch_mc_data (fetch mc)
  let carrier_data ← extract_data scrape mc_json
  match carrier_data with
  | some r => .ok (appendRow st r, [Event.fetch mc, Event.writeRow r, Event.sleep 5])
  | none => .ok (st, [Event.fetch mc, Event.sleep 5])

/-- The whole identifier loop over a list of identifiers, threading the file
state and collecting the event trace; an uncaught exception in a single
iteration aborts the run (there is no try/except around the loop body). -/
def run_loop (fetch : Nat → HttpOutcome) (scrape : Json → String) :
    List Nat → FileState → Except String (FileState × List Event)
  | [], st => .ok (st, [])
  | mc :: rest, st => do
      let (st1, evs1) ← loop_step fetch scrape mc st
      let (st2, evs2) ← run_loop fetch scrape rest st1
      .ok (st2, evs1 ++ evs2)

/-- The HTTP response of the `/generate-csv` endpoint: either
`send_file(..., as_attachment=True)` of the output file, or a plain-text
body with an explicit status code. -/
inductive HttpResponse where
  | fileAttachment (lines : List CsvLine)
  | textResponse (body : String) (status : Nat)

/-- Result of one request to `/generate-csv`: final file state, event trace,
and response. -/
structure RunResult where
  file : FileState
  events : List Event
  response : HttpResponse

/-- `generate_csv` (app.py:88–224): write the header, run the loop over
`range(start_mc, end_mc + 1)`, then return the file as an attachment when
`os.path.exists(output_csv_file)` holds, else the 400 text. -/
def generate_csv (fetch : Nat → HttpOutcome) (scrape : Json → String)
    (start_mc end_mc : Nat) : Except String RunResult := do
  let st0 := writeHeader
  let (st, evs) ← run_loop fetch scrape (List.range' start_mc (end_mc + 1 - start_mc)) st0
  let resp :=
    if st.created then HttpResponse.fileAttachment st.lines
    else HttpResponse.textResponse "No valid data found matching the criteria." 400
  .ok ⟨st, evs, resp⟩

/-- Environment for one `scrape_usdot_email` call (app.py:44–81): whether
`driver.get(url)` succeeds, whether the `WebDriverWait` locates the email
label before its timeout, whether the parent `li` and the `span.dat` sibling
exist, and the span's text. -/
structure ScrapeEnv where
  navOk : Bool
  labelFound : Bool
  liFound : Bool
  datFound : Bool
  datText : String

/-- A Python call outcome: a returned value, or an uncaught exception. -/
inductive PyOutcome (α : Type) where
  | ok (a : α)
  | raised (msg : String)

/-- What one `scrape_usdot_email` call did: its outcome, and whether
`driver.quit()` ran before control left the function. -/
structure ScrapeRun where
  result : PyOutcome String
  quitCalled : Bool

/-- `scrape_usdot_email` (app.py:44–81). `driver.get(url)` sits before the
`try` block: if navigation raises, the exception propagates and the
`finally` never runs. Inside the `try`, the wait for the label, the parent
`li` lookup and the `span.dat` lookup can each raise; the `except` catches
them, dumps debug artifacts and returns the empty string; the `finally`
calls `driver.quit()` on those paths and on success. -/
def scrape_usdot_email (env : ScrapeEnv) : ScrapeRun :=
  if !env.navOk then
    ⟨PyOutcome.raised "WebDriverException: navigation failed", false⟩
  else if env.labelFound && env.liFound && env.datFound then
    ⟨PyOutcome.ok env.datText.trim, true⟩
  else
    ⟨PyOutcome.ok "", true⟩

/-- Modelled from the spec: the delivery component response. `src/app.py`
only contains variant A (`send_file` attachment); variant B (email the file,
delete it, return a plain-text confirmation) is described in spec §4.6 and
§6 but its code is not under `src/`. -/
inductive DeliveryResponse where
  | fileDownload (lines : List CsvLine)
  | confirmationText (message : String)

/-- Modelled from the spec: one outbound email with the CSV attached. -/
structure EmailSend where
  recipient : String
  attachment : List CsvLine

/-- Modelled from the spec: what delivery did — the response returned to the
caller, emails sent, and whether the local file was deleted. -/
structure DeliveryResult where
  response : DeliveryResponse
  emailsSent : List EmailSend
  localFileDeleted : Bool

/-- Modelled from the spec (§4.6, §6): the optional `user_email` form
parameter selects the delivery variant. With `user_email` supplied, the
completed CSV is attached to an email to that address, the local file is
deleted after the send, and a plain-text confirmation is returned; without
it, the file itself is returned for download. -/
def deliver (user_email : Option String) (lines : List CsvLine) : DeliveryResult :=
  match user_email with
  | some addr =>
      ⟨DeliveryResponse.confirmationText "CSV generated and emailed successfully.",
        [⟨addr, lines⟩], true⟩
  | none => ⟨DeliveryResponse.fileDownload lines, [], false⟩

/-- Modelled from the spec (§6): the endpoint with both delivery variants —
run the pipeline over the range, then hand the completed file to the
delivery component chosen by `user_email`. -/
def handle_request (fetch : Nat → HttpOutcome) (scrape : Json → String)
    (start_mc end_mc : Nat) (user_email : Option String) :
    Except String (FileState × DeliveryResult) := do
  let (st, _evs) ← run_loop fetch scrape (List.range' start_mc (end_mc + 1 - start_mc)) writeHeader
  .ok (st, deliver user_email st.lines)

/-- The row a given identifier contributes in a run whose extraction did not
raise: `some` row exactly when the fetched record qualifies. -/
def rowOf (fetch : Nat → HttpOutcome) (scrape : Json → String) (mc : Nat) :
    Option CarrierRow :=
  match extract_data scrape (fetch_mc_data (fetch mc)) with
  | .ok r => r
  | .error _ => none

/-- Does identifier `mc` yield a qualifying record in this run? -/
def qualifiesB (fetch : Nat → HttpOutcome) (scrape : Json → String) (mc : Nat) : Bool :=
  (rowOf fetch scrape mc).isSome

/-- The events one identifier contributes in a run whose extraction did not
raise. -/
def stepEvents (fetch : Nat → HttpOutcome) (scrape : Json → String) (mc : Nat) :
    List Event :=
  match rowOf fetch scrape mc with
  | some r => [Event.fetch mc, Event.writeRow r, Event.sleep 5]
  | none => [Event.fetch mc, Event.sleep 5]

/-- The full event trace of a run whose extraction never raised. -/
def eventsOf (fetch : Nat → HttpOutcome) (scrape : Json → String) :
    List Nat → List Event
  | [] => []
  | mc :: rest => stepEvents fetch scrape mc ++ eventsOf fetch scrape rest

/-- Is this event a `time.sleep`? -/
def Event.isSleep : Event → Bool
  | .sleep _ => true
  | _ => false

/-- Is this event an API fetch? -/
def Event.isFetch : Event → Bool
  | .fetch _ => true
  | _ => false

/-- Is this CSV line the header? -/
def CsvLine.isHeader : CsvLine → Bool
  | .header => true
  | _ => false

/-- The carrier rows among the written CSV lines. -/
def dataRows (lines : List CsvLine) : List CarrierRow :=
  lines.filterMap (fun l => match l with
    | CsvLine.row r => some r
    | CsvLine.header => none)

/-- The CSV lines appended by the row-write events of a trace. -/
def rowsWritten (evs : List Event) : List CsvLine :=
  evs.filterMap (fun e => match e with
    | Event.writeRow r => some (CsvLine.row r)
    | _ => none)

theorem loop_step_ok (fetch : Nat → HttpOutcome) (scrape : Json → String)
    (mc : Nat) (st st1 : FileState) (evs1 : List Event)
    (h : loop_step fetch scrape mc st = .ok (st1, evs1)) :
    evs1 = stepEvents fetch scrape mc ∧
    st1.lines = st.lines ++ rowsWritten evs1 ∧
    (st.created = true → st1.created = true) := by
  unfold loop_step at h
  cases hx : extract_data scrape (fetch_mc_data (fetch mc)) with
  | error e => simp [hx, bind, Except.bind] at h
  | ok o =>
    cases o with
    | none =>
      simp [hx, bind, Except.bind] at h
      obtain ⟨h1, h2⟩ := h
      subst h1; subst h2
      simp [stepEvents, rowOf, hx, rowsWritten]
    | some r =>
      simp [hx, bind, Except.bind] at h
      obtain ⟨h1, h2⟩ := h
      subst h1; subst h2
      simp [stepEvents, rowOf, hx, rowsWritten, appendRow]

theorem run_loop_ok (fetch : Nat → HttpOutcome) (scrape : Json → String)
    (mcs : List Nat) :
    ∀ (st st' : FileState) (evs : List Event),
    run_loop fetch scrape mcs st = .ok (st', evs) →
    evs = eventsOf fetch scrape mcs ∧
    st'.lines = st.lines ++ rowsWritten evs ∧
    (st.created = true → st'.created = true) := by
  induction mcs with
  | nil =>
    intro st st' evs h
    simp [run_loop] at h
    obtain ⟨h1, h2⟩ := h
    subst h1; subst h2
    simp [eventsOf, rowsWritten]
  | cons mc rest ih =>
    intro st st' evs h
    unfold run_loop at h
    cases h1 : loop_step fetch scrape mc st with
    | error e => simp [h1, bind, Except.bind] at h
    | ok p1 =>
      obtain ⟨st1, evs1⟩ := p1
      cases h2 : run_loop fetch scrape rest st1 with
      | error e => simp [h1, h2, bind, Except.bind] at h
      | ok p2 =>
        obtain ⟨st2, evs2⟩ := p2
        simp [h1, h2, bind, Except.bind] at h
        obtain ⟨hst, hevs⟩ := h
        subst hst; subst hevs
        obtain ⟨e1, l1, c1⟩ := loop_step_ok fetch scrape mc st st1 evs1 h1
        obtain ⟨e2, l2, c2⟩ := ih st1 st2 evs2 h2
        refine ⟨by simp [eventsOf, e1, e2], ?_, fun hc => c2 (c1 hc)⟩
        simp [l2, l1, rowsWritten]

theorem rowsWritten_eventsOf (fetch : Nat → HttpOutcome) (scrape : Json → String)
    (mcs : List Nat) :
    rowsWritten (eventsOf fetch scrape mcs) =
      (mcs.filterMap (rowOf fetch scrape)).map CsvLine.row := by
  induction mcs with
  | nil => simp [eventsOf, rowsWritten]
  | cons mc rest ih =>
    simp only [eventsOf, rowsWritten, List.filterMap_append, List.filterMap_cons]
    rw [rowsWritten] at ih
    cases hr : rowOf fetch scrape mc with
    | none => simp [stepEvents, hr, ih]
    | some r => simp [stepEvents, hr, ih]

theorem countP_sleep_eventsOf (fetch : Nat → HttpOutcome) (scrape : Json → String)
    (mcs : List Nat) :
    (eventsOf fetch scrape mcs).countP Event.isSleep = mcs.length := by
  induction mcs with
  | nil => simp [eventsOf]
  | cons mc rest ih =>
    rw [eventsOf, List.countP_append, ih]
    cases hr : rowOf fetch scrape mc with
    | none => simp [stepEvents, hr, List.countP_cons, Event.isSleep, Nat.add_comm]
    | some r => simp [stepEvents, hr, List.countP_cons, Event.isSleep, Nat.add_comm]

theorem stepEvents_sleep (fetch : Nat → HttpOutcome) (scrape : Json → String)
    (mc : Nat) :
    (stepEvents fetch scrape mc).countP Event.isSleep = 1 ∧
    (stepEvents fetch scrape mc).getLast? = some (Event.sleep 5) := by
  cases hr : rowOf fetch scrape mc with
  | none => simp [stepEvents, hr, List.countP_cons, Event.isSleep, List.getLast?]
  | some r => simp [stepEvents, hr, List.countP_cons, Event.isSleep, List.getLast?]

theorem length_filterMap_rowOf (fetch : Nat → HttpOutcome) (scrape : Json → String)
    (mcs : List Nat) :
    (mcs.filterMap (rowOf fetch scrape)).length =
      (mcs.filter (qualifiesB fetch scrape)).length := by
  induction mcs with
  | nil => simp
  | cons mc rest ih =>
    simp only [List.filterMap_cons, List.filter_cons]
    cases hr : rowOf fetch scrape mc with
    | none => simp [qualifiesB, hr, ih]
    | some r => simp [qualifiesB, hr, ih]

theorem Json.get_obj (fs : List (String × Json)) (k : String) (d : Json) :
    Json.get (Json.obj fs) k d = .ok ((fs.lookup k).getD d) := rfl

theorem strItems_ok (xs : List Json)
    (h : xs.all (fun j => match j with | Json.str _ => true | _ => false) = true) :
    ∃ l, strItems xs = .ok l := by
  induction xs with
  | nil => exact ⟨[], rfl⟩
  | cons x rest ih =>
    simp only [List.all_cons, Bool.and_eq_true] at h
    obtain ⟨hx, hrest⟩ := h
    cases x
    case str s =>
      obtain ⟨l, hl⟩ := ih hrest
      exact ⟨s :: l, by simp [strItems, bind, Except.bind, hl]⟩
    all_goals simp_all

theorem pyJoin_ok (sep : String) (j : Json) (h : joinable j = true) :
    ∃ out, Json.pyJoin sep j = .ok out := by
  cases j with
  | arr xs =>
    obtain ⟨l, hl⟩ := strItems_ok xs (by simpa [joinable] using h)
    exact ⟨String.intercalate sep l, by simp [Json.pyJoin, bind, Except.bind, hl]⟩
  | str s => exact ⟨_, rfl⟩
  | obj fs => exact ⟨_, rfl⟩
  | null => simp [joinable] at h
  | num n => simp [joinable] at h
  | bool b => simp [joinable] at h

theorem asStr_getD_ok (o : Option Json) (h : typedStr o = true) :
    ∃ s, (o.getD (Json.str "")).asStr = .ok s := by
  cases o with
  | none => exact ⟨"", rfl⟩
  | some j =>
    cases j
    case str s => exact ⟨s, rfl⟩
    all_goals simp_all [typedStr]

theorem get_getD_obj_ok (o : Option Json) (h : typedObj o = true) (k : String) (d : Json) :
    ∃ v, (o.getD (Json.obj [])).get k d = .ok v := by
  cases o with
  | none => exact ⟨d, rfl⟩
  | some j =>
    cases j
    case obj gs => exact ⟨_, rfl⟩
    all_goals simp_all [typedObj]

theorem pyJoin_getD_ok (sep : String) (o : Option Json) (h : typedJoinable o = true) :
    ∃ out, Json.pyJoin sep (o.getD (Json.arr [])) = .ok out := by
  cases o with
  | none => exact ⟨"", rfl⟩
  | some j => exact pyJoin_ok sep j (by simpa [typedJoinable] using h)

theorem build_row_ok (scrape : Json → String) (fs : List (String × Json)) (pu : Json)
    (hph : typedStr (fs.lookup "phone") = true)
    (hmil : typedObj (fs.lookup "mcs_150_mileage_year") = true)
    (hoc : typedJoinable (fs.lookup "operation_classification") = true)
    (hco : typedJoinable (fs.lookup "carrier_operation") = true)
    (hcc : typedJoinable (fs.lookup "cargo_carried") = true) :
    ∃ r, build_row scrape (Json.obj fs) pu = .ok r := by
  obtain ⟨sph, hsph⟩ := asStr_getD_ok _ hph
  obtain ⟨vmil1, hmil1⟩ := get_getD_obj_ok _ hmil "mileage" (Json.str "")
  obtain ⟨vmil2, hmil2⟩ := get_getD_obj_ok _ hmil "year" (Json.str "")
  obtain ⟨soc, hsoc⟩ := pyJoin_getD_ok ", " _ hoc
  obtain ⟨sco, hsco⟩ := pyJoin_getD_ok ", " _ hco
  obtain ⟨scc, hscc⟩ := pyJoin_getD_ok ", " _ hcc
  simp only [build_row, bind, Except.bind, Json.get_obj, hsph, hmil1, hmil2,
    hsoc, hsco, hscc]
  exact ⟨_, rfl⟩

theorem extract_data_none (scrape : Json → String) :
    extract_data scrape none = .ok none := rfl

theorem extract_data_filter_false (scrape : Json → String)
    (fs : List (String × Json)) (pu : Int) (st : String)
    (hpu : fs.lookup "power_units" = some (Json.num pu))
    (hos : fs.lookup "operating_status" = some (Json.str st))
    (hq : record_qualifies (Json.num pu) st = false) :
    extract_data scrape (some (Json.obj fs)) = .ok none := by
  cases fs with
  | nil => simp [List.lookup] at hpu
  | cons p rest =>
    rw [record_qualifies] at hq
    unfold extract_data
    simp only [Json.truthy, List.isEmpty_cons, Bool.not_false, Bool.false_eq_true, if_false]
    simp only [bind, Except.bind]
    simp only [Json.get, hpu, hos, Option.getD_some, Json.lower]
    rw [hq]
    simp

theorem extract_data_filter_true_not_none (scrape : Json → String)
    (fs : List (String × Json)) (pu : Int) (st : String)
    (hpu : fs.lookup "power_units" = some (Json.num pu))
    (hos : fs.lookup "operating_status" = some (Json.str st))
    (hq : record_qualifies (Json.num pu) st = true) :
    extract_data scrape (some (Json.obj fs)) ≠ .ok none := by
  cases fs with
  | nil => simp [List.lookup] at hpu
  | cons p rest =>
    rw [record_qualifies] at hq
    unfold extract_data
    simp only [Json.truthy, List.isEmpty_cons, Bool.not_false, Bool.false_eq_true, if_false]
    simp only [bind, Except.bind]
    simp only [Json.get, hpu, hos, Option.getD_some, Json.lower]
    rw [hq]
    simp only [Bool.not_true, Bool.false_eq_true, if_false, if_true]
    cases hb : build_row scrape (Json.obj (p :: rest)) (Json.num pu) with
    | error e => simp [hb]
    | ok r => simp [hb]

theorem build_row_email (scrape : Json → String) (d pu : Json) (r : CarrierRow)
    (h : build_row scrape d pu = .ok r) :
    r.scraped_email = scrape r.usdot ∧ r.power_units = pu := by
  simp only [build_row, bind, Except.bind] at h
  repeat' split at h
  all_goals try exact Except.noConfusion h
  injection h with h2
  subst h2
  exact ⟨rfl, rfl⟩

theorem build_row_shape (s t : Json → String) (d pu : Json) :
    (build_row s d pu).map (fun _ => ()) = (build_row t d pu).map (fun _ => ()) := by
  simp only [build_row, bind, Except.bind]
  repeat' split
  all_goals simp_all [Except.map]

theorem extract_data_email (scrape : Json → String) (data : Option Json) (r : CarrierRow)
    (h : extract_data scrape data = .ok (some r)) :
    r.scraped_email = scrape r.usdot := by
  cases data with
  | none => exact absurd h (by simp [extract_data])
  | some d =>
    simp only [extract_data, bind, Except.bind] at h
    split at h
    · injection h with h2; exact Option.noConfusion h2
    · cases hg1 : Json.get d "power_units" (Json.num 0) with
      | error e => simp only [hg1] at h; exact Except.noConfusion h
      | ok pu =>
        simp only [hg1] at h
        cases hg2 : Json.get d "operating_status" (Json.str "") with
        | error e => simp only [hg2] at h; exact Except.noConfusion h
        | ok osj =>
          simp only [hg2] at h
          cases hl : osj.lower with
          | error e => simp only [hl] at h; exact Except.noConfusion h
          | ok os =>
            simp only [hl] at h
            split at h
            · cases hb : build_row scrape d pu with
              | error e => simp only [hb] at h; exact Except.noConfusion h
              | ok v =>
                simp only [hb] at h
                injection h with h2
                injection h2 with h3
                subst h3
                exact (build_row_email scrape d pu v hb).1
            · injection h with h2; exact Option.noConfusion h2

theorem lower_getD_ok (o : Option Json) (h : typedStr o = true) :
    ∃ s, ((o.getD (Json.str "")).lower) = .ok s := by
  cases o with
  | none => exact ⟨_, rfl⟩
  | some j =>
    cases j
    case str s => exact ⟨_, rfl⟩
    all_goals simp_all [typedStr]

theorem extract_data_ok_of_wellTyped (scrape : Json → String)
    (fs : List (String × Json)) (hwt : wellTypedRecord fs = true) :
    ∃ res, extract_data scrape (some (Json.obj fs)) = .ok res := by
  simp only [wellTypedRecord, Bool.and_eq_true] at hwt
  obtain ⟨⟨⟨⟨⟨hos, hph⟩, hmil⟩, hoc⟩, hco⟩, hcc⟩ := hwt
  simp only [extract_data, bind, Except.bind]
  by_cases ht : (!(Json.obj fs).truthy) = true
  · rw [if_pos ht]; exact ⟨none, rfl⟩
  · rw [if_neg ht]
    obtain ⟨os, hosok⟩ := lower_getD_ok _ hos
    simp only [Json.get_obj, hosok]
    split
    · obtain ⟨r, hb⟩ :=
        build_row_ok scrape fs ((fs.lookup "power_units").getD (Json.num 0))
          hph hmil hoc hco hcc
      rw [hb]
      exact ⟨some r, rfl⟩
    · exact ⟨none, rfl⟩

theorem extract_data_shape (s t : Json → String) (data : Option Json) :
    (extract_data s data).map Option.isSome = (extract_data t data).map Option.isSome := by
  cases data with
  | none => rfl
  | some d =>
    simp only [extract_data, bind, Except.bind]
    by_cases ht : (!d.truthy) = true
    · simp only [if_pos ht]
    · simp only [if_neg ht]
      cases hg1 : Json.get d "power_units" (Json.num 0) with
      | error e => simp
      | ok pu =>
        cases hg2 : Json.get d "operating_status" (Json.str "") with
        | error e => simp
        | ok osj =>
          cases hl : osj.lower with
          | error e => simp [hl]
          | ok os =>
            have hshape := build_row_shape s t d pu
            by_cases hq : (pyEqInt pu 1 = true ∧
                strContainsSub os "authorized for property" = true)
            · cases hbs : build_row s d pu with
              | error e =>
                cases hbt : build_row t d pu with
                | error e2 =>
                  rw [hbs, hbt] at hshape
                  simp only [Except.map] at hshape
                  injection hshape with he
                  subst he
                  simp [hl, hq.1, hq.2, hbs, hbt]
                | ok w =>
                  rw [hbs, hbt] at hshape
                  simp [Except.map] at hshape
              | ok v =>
                cases hbt : build_row t d pu with
                | error e2 =>
                  rw [hbs, hbt] at hshape
                  simp [Except.map] at hshape
                | ok w => simp [hl, hq.1, hq.2, hbs, hbt, Except.map]
            · simp [hl, hq]

theorem qualifiesB_indep (fetch : Nat → HttpOutcome) (s t : Json → String) (mc : Nat) :
    qualifiesB fetch s mc = qualifiesB fetch t mc := by
  have h := extract_data_shape s t (fetch_mc_data (fetch mc))
  unfold qualifiesB rowOf
  cases hs : extract_data s (fetch_mc_data (fetch mc)) with
  | error e =>
    cases ht : extract_data t (fetch_mc_data (fetch mc)) with
    | error e2 => simp
    | ok o2 => rw [hs, ht] at h; simp [Except.map] at h
  | ok o =>
    cases ht : extract_data t (fetch_mc_data (fetch mc)) with
    | error e2 => rw [hs, ht] at h; simp [Except.map] at h
    | ok o2 =>
      rw [hs, ht] at h
      simp only [Except.map] at h
      injection h

/-- Claim C1: the spec requires a zero-qualifying-row run to answer HTTP 400
with the "no data" text. In the code the header write (app.py:123) creates
the output file before the loop, so `os.path.exists` (app.py:221) is always
true and the 400 branch (app.py:224) is unreachable — contradicting the
comment above it ("If we found any carriers, the CSV should exist"). Here
the API yields no record for the single identifier in range, zero rows
qualify, yet the endpoint returns the header-only CSV as a file
attachment. -/
theorem c1_zero_rows_still_file_response :
    generate_csv (fun _ => HttpOutcome.exn) (fun _ => "") 1560000 1560000 =
      .ok ⟨⟨true, [CsvLine.header]⟩, [Event.fetch 1560000, Event.sleep 5],
        HttpResponse.fileAttachment [CsvLine.header]⟩ ∧
    HttpResponse.fileAttachment [CsvLine.header] ≠
      HttpResponse.textResponse "No valid data found matching the criteria." 400 := by
  exact ⟨rfl, fun h => HttpResponse.noConfusion h⟩

/-- A scrape environment in which `driver.get(url)` raises (navigation
failure); everything after navigation is irrelevant. -/
def navFailEnv : ScrapeEnv :=
  ⟨false, false, false, false, ""⟩

/-- Claim C2 counterexample: on a navigation failure, `scrape_usdot_email`
does not return a string — `driver.get` (app.py:53) sits before the `try`
block, so the exception propagates to the caller. -/
theorem c2_counterexample_navigation_raises :
    (scrape_usdot_email navFailEnv).result =
      PyOutcome.raised "WebDriverException: navigation failed" := rfl

/-- Claim C2 (amended): once the initial navigation has succeeded, every
outcome returns a string: the scraped text on full success, and the empty
string when the label is not found in time, the parent `li` is missing, or
the `span.dat` sibling is missing — those exceptions are caught by the
`except` block (app.py:73–79). -/
theorem c2_scrape_returns_string_after_nav (env : ScrapeEnv)
    (h : env.navOk = true) :
    (∃ s, (scrape_usdot_email env).result = PyOutcome.ok s) ∧
    ((env.labelFound && env.liFound && env.datFound) = false →
      (scrape_usdot_email env).result = PyOutcome.ok "") := by
  unfold scrape_usdot_email
  rw [h]
  by_cases hb : (env.labelFound && env.liFound && env.datFound) = true
  · rw [hb]
    exact ⟨⟨env.datText.trim, rfl⟩, fun hf => Bool.noConfusion hf⟩
  · rw [Bool.not_eq_true] at hb
    rw [hb]
    exact ⟨⟨"", rfl⟩, fun _ => rfl⟩

/-- Witness for C2 (amended): navigation succeeds but the email label never
renders; the call returns the empty string rather than raising. -/
theorem c2_witness :
    (scrape_usdot_email ⟨true, false, true, true, ""⟩).result =
      PyOutcome.ok "" :=
  (c2_scrape_returns_string_after_nav ⟨true, false, true, true, ""⟩ rfl).2 rfl

/-- Claim C3 counterexample: on a navigation failure the exception escapes
before the `try`/`finally` is entered, so `driver.quit()` never runs and the
browser session leaks. -/
theorem c3_counterexample_quit_skipped :
    (scrape_usdot_email navFailEnv).quitCalled = false := rfl

/-- Claim C3 (amended): on every exit path reached after `driver.get`
succeeds — scraped text returned, empty-string return after an extraction
failure — the `finally` block runs `driver.quit()` before the function
returns. If navigation itself raises, the session is not torn down. -/
theorem c3_quit_after_nav (env : ScrapeEnv) (h : env.navOk = true) :
    (scrape_usdot_email env).quitCalled = true := by
  unfold scrape_usdot_email
  rw [h]
  by_cases hb : (env.labelFound && env.liFound && env.datFound) = true
  · rw [hb]; rfl
  · rw [Bool.not_eq_true] at hb
    rw [hb]; rfl

/-- Witness for C3 (amended): a successful lookup tears the session down. -/
theorem c3_witness :
    (scrape_usdot_email ⟨true, true, true, true, "a@b.example"⟩).quitCalled = true :=
  c3_quit_after_nav ⟨true, true, true, true, "a@b.example"⟩ rfl

/-- Claim C4 counterexample: `raise_for_status` raises only for status codes
400–599, so a 304 response — non-2xx — whose body parses as JSON is returned
as a record instead of being treated as absent. -/
theorem c4_counterexample_304_returns_record :
    fetch_mc_data (HttpOutcome.response 304 (some (Json.obj []))) =
      some (Json.obj []) ∧ ¬(200 ≤ 304 ∧ 304 ≤ 299) := by
  refine ⟨?_, by omega⟩
  simp only [fetch_mc_data]
  rw [if_neg (by omega)]

/-- Claim C4 (amended): `fetch_mc_data` is total (never propagates a
failure) and returns `None` exactly when the request raised
(`RequestException`: transport failure or timeout), the status code is in
400–599 (`raise_for_status` → `HTTPError`, caught), or the body failed to
parse (`JSONDecodeError`, a `RequestException` subclass, caught); any other
response with a parseable body — including a non-2xx status outside
400–599 — is returned as the record. -/
theorem c4_fetch_absent_characterization :
    (∀ o : HttpOutcome, fetch_mc_data o = none ↔
      (o = HttpOutcome.exn ∨ ∃ s b, o = HttpOutcome.response s b ∧
        ((400 ≤ s ∧ s < 600) ∨ b = none))) ∧
    (∀ (s : Nat) (j : Json), ¬(400 ≤ s ∧ s < 600) →
      fetch_mc_data (HttpOutcome.response s (some j)) = some j) := by
  constructor
  · intro o
    cases o with
    | exn => simp [fetch_mc_data]
    | response s b =>
      simp only [fetch_mc_data]
      by_cases hs : 400 ≤ s ∧ s < 600
      · rw [if_pos hs]
        exact iff_of_true rfl (Or.inr ⟨s, b, rfl, Or.inl hs⟩)
      · rw [if_neg hs]
        cases b with
        | none => exact iff_of_true rfl (Or.inr ⟨s, none, rfl, Or.inr rfl⟩)
        | some j =>
          refine iff_of_false (by simp) ?_
          rintro (habs | ⟨s1, b1, heq, hc⟩)
          · exact HttpOutcome.noConfusion habs
          · injection heq with h1 h2
            subst h1
            subst h2
            rcases hc with hc | hc
            · exact hs hc
            · exact Option.noConfusion hc
  · intro s j hs
    simp only [fetch_mc_data]
    rw [if_neg hs]

/-- Witness for C4 (amended): a 204 No Content response whose empty body
fails to parse is treated as absent, and a (pathological) status-700
response with a JSON body is returned as a record. -/
theorem c4_witness :
    fetch_mc_data (HttpOutcome.response 700 (some (Json.num 7))) =
      some (Json.num 7) :=
  c4_fetch_absent_characterization.2 700 (Json.num 7) (by omega)

/-- Claim C5: the filter is true iff `power_units` equals 1 and the
lowercased operating-status text contains "authorized for property"
(app.py:160); an absent record never qualifies (app.py:153); and on any
record (whatever its other fields hold) a false filter yields `None` while
a true filter never yields `None`. -/
theorem c5_filter_characterization :
    (∀ scrape, extract_data scrape none = .ok none) ∧
    (∀ (pu : Int) (st : String), record_qualifies (Json.num pu) st = true ↔
      (pu = 1 ∧ strContainsSub (pyLower st) "authorized for property" = true)) ∧
    (∀ (scrape : Json → String) (fs : List (String × Json)) (pu : Int) (st : String),
      fs.lookup "power_units" = some (Json.num pu) →
      fs.lookup "operating_status" = some (Json.str st) →
      ((record_qualifies (Json.num pu) st = false →
          extract_data scrape (some (Json.obj fs)) = .ok none) ∧
       (record_qualifies (Json.num pu) st = true →
          extract_data scrape (some (Json.obj fs)) ≠ .ok none))) := by
  refine ⟨extract_data_none, ?_, ?_⟩
  · intro pu st
    simp [record_qualifies, pyEqInt, Bool.and_eq_true, beq_iff_eq]
  · intro scrape fs pu st hpu hos
    exact ⟨extract_data_filter_false scrape fs pu st hpu hos,
      extract_data_filter_true_not_none scrape fs pu st hpu hos⟩

/-- Witness for C5: a record with one power unit and status text
"Authorized for PROPERTY ..." qualifies (its extraction is not `None`),
via the third conjunct at a concrete record. -/
theorem c5_witness :
    extract_data (fun _ => "") (some (Json.obj
      [("power_units", Json.num 1),
       ("operating_status", Json.str "AUTHORIZED FOR Property")])) ≠
      .ok none :=
  ((c5_filter_characterization.2.2 (fun _ => "")
      [("power_units", Json.num 1),
       ("operating_status", Json.str "AUTHORIZED FOR Property")]
      1 "AUTHORIZED FOR Property" rfl rfl).2) (by decide)

theorem dataRows_map_row (l : List CarrierRow) :
    dataRows (l.map CsvLine.row) = l := by
  induction l with
  | nil => rfl
  | cons r rest ih =>
    simp only [dataRows, List.map_cons, List.filterMap_cons] at ih ⊢
    rw [ih]

theorem countP_isHeader_map_row (l : List CarrierRow) :
    (l.map CsvLine.row).countP CsvLine.isHeader = 0 := by
  induction l with
  | nil => rfl
  | cons r rest ih =>
    simp only [List.map_cons, List.countP_cons, CsvLine.isHeader, ih]
    simp

/-- Claim C6 counterexample: a parsed response in which `operating_status`
is present but null crashes extraction: `data.get('operating_status', '')`
returns the null value, and `.lower()` on it raises `AttributeError`
(app.py:157). The `.get` default only guards against a missing key. -/
theorem c6_counterexample_null_status_crashes :
    extract_data (fun _ => "") (some (Json.obj
      [("power_units", Json.num 1), ("operating_status", Json.null)])) =
      .error "AttributeError: lower" := rfl

/-- Claim C6 (amended): extraction never crashes on a response dictionary
whose present values have the types the extractor's operations expect —
every field access substitutes its default (empty string, zero dict, empty
list) when the key is missing, so any partial response still yields a
complete result. A present key with an unexpected type (a non-string
`operating_status` or `phone`, a non-dict `mcs_150_mileage_year`, a
non-joinable classification field) crashes extraction. -/
theorem c6_extraction_tolerates_missing_keys (scrape : Json → String)
    (fs : List (String × Json)) (hwt : wellTypedRecord fs = true) :
    ∃ res, extract_data scrape (some (Json.obj fs)) = .ok res :=
  extract_data_ok_of_wellTyped scrape fs hwt

/-- Witness for C6 (amended): a partial response carrying only three keys
extracts without crashing. -/
theorem c6_witness :
    ∃ res, extract_data (fun _ => "x@example.com") (some (Json.obj
      [("legal_name", Json.str "ACME HAULING"), ("power_units", Json.num 1),
       ("operating_status", Json.str "AUTHORIZED FOR Property")])) = .ok res :=
  c6_extraction_tolerates_missing_keys (fun _ => "x@example.com")
    [("legal_name", Json.str "ACME HAULING"), ("power_units", Json.num 1),
     ("operating_status", Json.str "AUTHORIZED FOR Property")] (by decide)

/-- Claim C7: in any run of the endpoint that terminates normally, the
header is the first CSV line and is written exactly once; the number of
data rows equals the number of identifiers in the range whose record passes
the filter; which records qualify does not depend on the scraper (so a
failed scrape never suppresses a row); and each written row carries exactly
the scraper's result for its `usdot` (possibly the empty string). -/
theorem c7_header_once_rows_match_filter (fetch : Nat → HttpOutcome)
    (scrape : Json → String) (start_mc end_mc : Nat) (res : RunResult)
    (h : generate_csv fetch scrape start_mc end_mc = .ok res) :
    res.file.lines.head? = some CsvLine.header ∧
    res.file.lines.countP CsvLine.isHeader = 1 ∧
    (dataRows res.file.lines).length =
      ((List.range' start_mc (end_mc + 1 - start_mc)).filter
        (qualifiesB fetch scrape)).length ∧
    (∀ t mc, qualifiesB fetch scrape mc = qualifiesB fetch t mc) ∧
    (∀ d r, extract_data scrape d = .ok (some r) →
      r.scraped_email = scrape r.usdot) := by
  unfold generate_csv at h
  simp only [bind, Except.bind] at h
  cases hrl : run_loop fetch scrape
      (List.range' start_mc (end_mc + 1 - start_mc)) writeHeader with
  | error e => rw [hrl] at h; exact Except.noConfusion h
  | ok p =>
    obtain ⟨st, evs⟩ := p
    simp only [hrl] at h
    injection h with h2
    subst h2
    obtain ⟨hevs, hlines, _⟩ := run_loop_ok fetch scrape
      (List.range' start_mc (end_mc + 1 - start_mc)) writeHeader st evs hrl
    subst hevs
    refine ⟨?_, ?_, ?_, fun t mc => qualifiesB_indep fetch scrape t mc,
      fun d r hr => extract_data_email scrape d r hr⟩
    · simp [hlines, writeHeader]
    · simp only [hlines, writeHeader, rowsWritten_eventsOf,
        List.singleton_append, List.countP_cons, CsvLine.isHeader,
        countP_isHeader_map_row]
      simp
    · simp only [hlines, writeHeader, rowsWritten_eventsOf,
        List.singleton_append, dataRows, List.filterMap_cons]
      rw [← dataRows]
      rw [dataRows_map_row, length_filterMap_rowOf]

/-- Witness for C7: a concrete run (the API fails for the one identifier in
range) satisfies the hypotheses; the first conjunct at that run. -/
theorem c7_witness :
    (⟨⟨true, [CsvLine.header]⟩, [Event.fetch 7, Event.sleep 5],
      HttpResponse.fileAttachment [CsvLine.header]⟩ : RunResult).file.lines.head? =
      some CsvLine.header :=
  (c7_header_once_rows_match_filter (fun _ => HttpOutcome.exn) (fun _ => "") 7 7
    ⟨⟨true, [CsvLine.header]⟩, [Event.fetch 7, Event.sleep 5],
      HttpResponse.fileAttachment [CsvLine.header]⟩ rfl).1

/-- Claim C8: in any normally-terminating run, the event trace is exactly
the concatenation, in range order, of one segment per identifier; every
segment ends with the unconditional `time.sleep(5)` (app.py:218) and
contains exactly one sleep; hence the trace holds exactly one 5-second
sleep per identifier in the range. -/
theorem c8_sleep_after_each_identifier (fetch : Nat → HttpOutcome)
    (scrape : Json → String) (start_mc end_mc : Nat) (res : RunResult)
    (h : generate_csv fetch scrape start_mc end_mc = .ok res) :
    res.events = eventsOf fetch scrape (List.range' start_mc (end_mc + 1 - start_mc)) ∧
    res.events.countP Event.isSleep =
      (List.range' start_mc (end_mc + 1 - start_mc)).length ∧
    (∀ mc, (stepEvents fetch scrape mc).countP Event.isSleep = 1 ∧
      (stepEvents fetch scrape mc).getLast? = some (Event.sleep 5)) := by
  unfold generate_csv at h
  simp only [bind, Except.bind] at h
  cases hrl : run_loop fetch scrape
      (List.range' start_mc (end_mc + 1 - start_mc)) writeHeader with
  | error e => rw [hrl] at h; exact Except.noConfusion h
  | ok p =>
    obtain ⟨st, evs⟩ := p
    simp only [hrl] at h
    injection h with h2
    subst h2
    obtain ⟨hevs, _, _⟩ := run_loop_ok fetch scrape
      (List.range' start_mc (end_mc + 1 - start_mc)) writeHeader st evs hrl
    subst hevs
    exact ⟨rfl, countP_sleep_eventsOf fetch scrape _,
      fun mc => stepEvents_sleep fetch scrape mc⟩

/-- Witness for C8: the one-identifier failed-fetch run sleeps exactly
once. -/
theorem c8_witness :
    ([Event.fetch 7, Event.sleep 5] : List Event).countP Event.isSleep =
      (List.range' 7 (7 + 1 - 7)).length :=
  (c8_sleep_after_each_identifier (fun _ => HttpOutcome.exn) (fun _ => "") 7 7
    ⟨⟨true, [CsvLine.header]⟩, [Event.fetch 7, Event.sleep 5],
      HttpResponse.fileAttachment [CsvLine.header]⟩ rfl).2.1

/-- Claim C9 (spec-modelled: the email-delivery variant is absent from
`src/app.py`, which only implements the download variant; `deliver` and
`handle_request` are modelled from spec §4.6 and §6): whenever the request
supplies `user_email`, the endpoint attaches the completed CSV to one
outbound email addressed to the supplied address, deletes the local file,
and responds with a plain-text confirmation — while a request without
`user_email` gets the file itself for download. -/
theorem c9_user_email_selects_email_delivery (fetch : Nat → HttpOutcome)
    (scrape : Json → String) (start_mc end_mc : Nat) (addr : String)
    (st : FileState) (dres : DeliveryResult)
    (h : handle_request fetch scrape start_mc end_mc (some addr) = .ok (st, dres)) :
    dres.emailsSent = [⟨addr, st.lines⟩] ∧
    dres.localFileDeleted = true ∧
    (∃ msg, dres.response = DeliveryResponse.confirmationText msg) ∧
    (∀ lines, (deliver none lines).response = DeliveryResponse.fileDownload lines) := by
  unfold handle_request at h
  simp only [bind, Except.bind] at h
  cases hrl : run_loop fetch scrape
      (List.range' start_mc (end_mc + 1 - start_mc)) writeHeader with
  | error e => rw [hrl] at h; exact Except.noConfusion h
  | ok p =>
    obtain ⟨st1, evs⟩ := p
    simp only [hrl] at h
    injection h with h2
    simp only [Prod.mk.injEq] at h2
    obtain ⟨hst, hdres⟩ := h2
    subst hst
    subst hdres
    exact ⟨rfl, rfl, ⟨_, rfl⟩, fun lines => rfl⟩

/-- Witness for C9: a concrete request with `user_email` supplied over an
empty range sends the header-only CSV to that address. -/
theorem c9_witness :
    (⟨DeliveryResponse.confirmationText "CSV generated and emailed successfully.",
      [⟨"user@example.com", [CsvLine.header]⟩], true⟩ : DeliveryResult).emailsSent =
      [⟨"user@example.com", (⟨true, [CsvLine.header]⟩ : FileState).lines⟩] :=
  (c9_user_email_selects_email_delivery (fun _ => HttpOutcome.exn) (fun _ => "")
    1 0 "user@example.com" ⟨true, [CsvLine.header]⟩
    ⟨DeliveryResponse.confirmationText "CSV generated and emailed successfully.",
      [⟨"user@example.com", [CsvLine.header]⟩], true⟩ rfl).1

/-- Claim C10: a request with `start_mc > end_mc` iterates an empty range:
no fetch is performed and no record is extracted (the result is a constant
in both oracles, and the event trace is empty), only the header row is
written, and the response is the same success shape as a non-empty run —
the header-only CSV as a file attachment. -/
theorem c10_empty_range_header_only (fetch : Nat → HttpOutcome)
    (scrape : Json → String) (start_mc end_mc : Nat) (h : end_mc < start_mc) :
    generate_csv fetch scrape start_mc end_mc =
      .ok ⟨⟨true, [CsvLine.header]⟩, [],
        HttpResponse.fileAttachment [CsvLine.header]⟩ := by
  have h0 : end_mc + 1 - start_mc = 0 := by omega
  unfold generate_csv
  rw [h0]
  rfl

/-- Witness for C10: the inverted default-like range 1560000..1559999
returns the header-only attachment. -/
theorem c10_witness :
    generate_csv (fun _ => HttpOutcome.exn) (fun _ => "") 1560000 1559999 =
      .ok ⟨⟨true, [CsvLine.header]⟩, [],
        HttpResponse.fileAttachment [CsvLine.header]⟩ :=
  c10_empty_range_header_only (fun _ => HttpOutcome.exn) (fun _ => "")
    1560000 1559999 (by omega)
